import Mathlib

/-!
TURN server: protocol dispatcher and Binding handler.

A shallow embedding of `internal/server/server.go` and `internal/server/stun.go`.

The Go code is effectful glue around collaborators that live in other files
(the wire decoders, the per-method TURN handlers, the response builder and
sender).  The embedding therefore threads an explicit `World` through every
function:

* `World.trace` is the ordered record of the calls the code makes to the
  outside (logger calls, handler invocations, sends);
* `World.store` is the server state reached through `Request.AllocationManager`
  and `Request.NonceHash` (Allocation Store, nonce registry);
* `World.net` is the state of the sockets.

Collaborators that are not defined in the two source files are the fields of
`Env`.  `Request` values are taken with non-nil `Conn`, `SrcAddr` and `Log`.
-/

namespace server

/-! ## Data model -/

/-- Byte strings: Go `[]byte` values and the bytes of a Go `string`, each
element a number below 256. -/
abbrev Bytes := List Nat

/-- A `net.Addr` value: the results of its two interface methods. -/
structure Addr where
  /-- Result of `Network()`. -/
  network : Bytes
  /-- Result of `String()`. -/
  str : Bytes
  deriving DecidableEq, Repr

/-- A `net.PacketConn` value, identified by a handle, with its `LocalAddr()`. -/
structure Conn where
  handle : Nat
  LocalAddr : Addr
  deriving DecidableEq, Repr

/-- A `logging.LeveledLogger` value, identified by a handle. -/
structure Logger where
  handle : Nat
  deriving DecidableEq, Repr

/-- The `stun.MessageType` pair.  `Class` is a Go `byte`, `Method` a `uint16`. -/
structure MessageType where
  Method : Nat
  Class : Nat
  deriving DecidableEq, Repr

/-- The `stun.ClassRequest` constant.  The class and method constants have the
values of `github.com/pion/stun/v3`, which `server.go` imports. -/
def ClassRequest : Nat := 0x00
/-- The `stun.ClassIndication` constant. -/
def ClassIndication : Nat := 0x01
/-- The `stun.ClassSuccessResponse` constant. -/
def ClassSuccessResponse : Nat := 0x02
/-- The `stun.ClassErrorResponse` constant. -/
def ClassErrorResponse : Nat := 0x03

/-- The `stun.MethodBinding` constant. -/
def MethodBinding : Nat := 0x001
/-- The `stun.MethodAllocate` constant. -/
def MethodAllocate : Nat := 0x003
/-- The `stun.MethodRefresh` constant. -/
def MethodRefresh : Nat := 0x004
/-- The `stun.MethodSend` constant. -/
def MethodSend : Nat := 0x006
/-- The `stun.MethodData` constant. -/
def MethodData : Nat := 0x007
/-- The `stun.MethodCreatePermission` constant. -/
def MethodCreatePermission : Nat := 0x008
/-- The `stun.MethodChannelBind` constant. -/
def MethodChannelBind : Nat := 0x009

/-- The `stun.BindingSuccess` message type. -/
def BindingSuccess : MessageType := { Method := MethodBinding, Class := ClassSuccessResponse }

/-- A raw STUN attribute: type code and value. -/
structure RawAttribute where
  Typ : Nat
  Value : Bytes
  deriving DecidableEq, Repr

/-- A decoded `stun.Message`. -/
structure Message where
  Typ : MessageType
  TransactionID : Bytes
  Attributes : List RawAttribute
  Raw : Bytes
  deriving DecidableEq, Repr

/-- A decoded `proto.ChannelData`. -/
structure ChannelData where
  Data : Bytes
  Number : Nat
  Raw : Bytes
  deriving DecidableEq, Repr

/-- Modelled from the spec: the package-level error values that `server.go`
names and `errors.go` (not among the sources) declares.  The spec keeps the
decode failure (`MalformedMessage`) and the routing failure
(`UnhandledMessageKind`) apart; each name is a value of its own. -/
inductive Sentinel where
  | errFailedToCreateSTUNPacket
  | errFailedToCreateChannelData
  | errUnableToHandleChannelData
  | errUnhandledSTUNPacket
  | errFailedToHandle
  | errUnexpectedClass
  | errUnexpectedMethod
  deriving DecidableEq, Repr

/-- Operands of a `fmt.Errorf` call other than errors. -/
inductive FmtArg where
  | method (n : Nat)
  | cls (n : Nat)
  | addr (a : Addr)
  deriving DecidableEq, Repr

/-- Go `error` values.  `errorf` and `errorfCause` are results of `fmt.Errorf`
whose format has one `%w`, applied to the sentinel `w`; `cause` is an error
operand printed with `%v`, which is not wrapped. -/
inductive GoError where
  | sentinel (s : Sentinel)
  | foreign (tag : Nat)
  | errorf (format : String) (w : Sentinel) (args : List FmtArg)
  | errorfCause (format : String) (w : Sentinel) (args : List FmtArg) (cause : GoError)
  deriving DecidableEq, Repr

/-- The `errors.Is(e, target)` test for a sentinel target. -/
def GoError.Is : GoError → Sentinel → Bool
  | .sentinel s, t => decide (s = t)
  | .foreign _, _ => false
  | .errorf _ w _, t => decide (w = t)
  | .errorfCause _ w _ _, t => decide (w = t)

/-- The fields of `Request`. -/
structure Request where
  Conn : Conn
  SrcAddr : Addr
  Buff : Bytes
  /-- Pointer to the allocation manager; its state is `World.store`. -/
  AllocationManager : Nat
  /-- Pointer to the nonce registry; its state is `World.store`. -/
  NonceHash : Nat
  AuthHandler : Bytes → Bytes → Addr → Bytes × Bool
  Log : Logger
  Realm : Bytes
  /-- A `time.Duration`, in nanoseconds. -/
  ChannelBindTimeout : Int

/-- The named request handlers `getMessageHandler` can return. -/
inductive HandlerName where
  | handleSendIndication
  | handleAllocateRequest
  | handleRefreshRequest
  | handleCreatePermissionRequest
  | handleChannelBindRequest
  | handleBindingRequest
  deriving DecidableEq, Repr

/-- The `stun.Setter` values handed to `buildMsg` and `buildAndSend`. -/
inductive Setter where
  | transactionID (tid : Bytes)
  | msgType (t : MessageType)
  | xorMappedAddress (IP : Bytes) (Port : Int)
  | fingerprint
  deriving DecidableEq, Repr

/-- Logger methods used by the code. -/
inductive Level where
  | debug
  | error
  deriving DecidableEq, Repr

/-- Operands of a logger call. -/
inductive LogArg where
  | int (n : Int)
  | addr (a : Addr)
  | err (e : GoError)
  deriving DecidableEq, Repr

/-- One call made to the outside. -/
inductive Event where
  | log (logger : Logger) (level : Level) (format : String) (args : List LogArg)
  | handler (h : HandlerName) (m : Message)
  | channelData (c : ChannelData)
  | send (conn : Conn) (dst : Addr) (attrs : List Setter)
  deriving DecidableEq, Repr

/-- Is the event the invocation of a request handler (a STUN handler or
`handleChannelData`)? -/
def Event.isInvocation : Event → Bool
  | .handler _ _ => true
  | .channelData _ => true
  | _ => false

/-- Is the event the invocation of a STUN handler? -/
def Event.isHandler : Event → Bool
  | .handler _ _ => true
  | _ => false

/-- Is the event the invocation of `handleChannelData`? -/
def Event.isChannelData : Event → Bool
  | .channelData _ => true
  | _ => false

/-- Is the event a logger call? -/
def Event.isLog : Event → Bool
  | .log _ _ _ _ => true
  | _ => false

/-- The event with the receiver of a logger call replaced by `l`; other
events are left as they are. -/
def Event.withLogger (l : Logger) : Event → Event
  | .log _ level format args => .log l level format args
  | ev => ev

/-- Is the event a send made by the code of the two source files? -/
def Event.isSend : Event → Bool
  | .send _ _ _ => true
  | _ => false

/-- The state the code runs in. -/
structure World (σ ν : Type) where
  trace : List Event
  store : σ
  net : ν

/-- Record one call. -/
def World.emit {σ ν : Type} (w : World σ ν) (e : Event) : World σ ν :=
  { w with trace := w.trace ++ [e] }

/-- The events recorded in `w2` after the first `w1.trace.length` ones. -/
def World.since {σ ν : Type} (w2 w1 : World σ ν) : List Event :=
  w2.trace.drop w1.trace.length

/-- The world `w` with its record of calls replaced. -/
def World.withTrace {σ ν : Type} (w : World σ ν) (t : List Event) : World σ ν :=
  { w with trace := t }

/-- Collaborators defined outside `server.go` and `stun.go`.  They are total
functions: a collaborator that panics is outside the embedding. -/
structure Env (σ ν : Type) where
  /-- The `proto.IsChannelData` test. -/
  IsChannelData : Bytes → Bool
  /-- The `(*proto.ChannelData).Decode` method on a value whose `Raw` is the argument. -/
  decodeChannelData : Bytes → Except GoError ChannelData
  /-- The `(*stun.Message).Decode` method on a message whose `Raw` is the argument. -/
  decodeSTUN : Bytes → Except GoError Message
  /-- The `ipnet.AddrIPPort` function. -/
  AddrIPPort : Addr → Except GoError (Bytes × Int)
  /-- The `buildMsg` function of `util.go`. -/
  buildMsg : Bytes → MessageType → List Setter → List Setter
  /-- The `buildAndSend` function of `util.go`; it acts on the sockets only. -/
  buildAndSend : Conn → Addr → List Setter → ν → Option GoError × ν
  /-- The `handleChannelData` function of `turn.go`. -/
  handleChannelData : Request → ChannelData → σ × ν → Option GoError × (σ × ν)
  handleSendIndication : Request → Message → σ × ν → Option GoError × (σ × ν)
  handleAllocateRequest : Request → Message → σ × ν → Option GoError × (σ × ν)
  handleRefreshRequest : Request → Message → σ × ν → Option GoError × (σ × ν)
  handleCreatePermissionRequest : Request → Message → σ × ν → Option GoError × (σ × ν)
  handleChannelBindRequest : Request → Message → σ × ν → Option GoError × (σ × ν)

/-- Run a collaborator that acts on the store and the sockets. -/
def World.run {σ ν : Type} (w : World σ ν)
    (f : σ × ν → Option GoError × (σ × ν)) : Option GoError × World σ ν :=
  let res := f (w.store, w.net)
  (res.1, { w with store := res.2.1, net := res.2.2 })

/-- How a Go function call ends. -/
inductive Outcome where
  | returned (err : Option GoError)
  | panicked (reason : String)
  deriving DecidableEq, Repr

/-- The Go slice expression `s[:n]` on a string: `none` when it panics. -/
def sliceTo (s : Bytes) (n : Nat) : Option Bytes :=
  if n ≤ s.length then some (s.take n) else none

/-! ## `stun.go` -/

/-- The function `handleBindingRequest` (stun.go:11-27). -/
def handleBindingRequest {σ ν : Type} (E : Env σ ν) (r : Request) (m : Message)
    (w : World σ ν) : Option GoError × World σ ν :=
  let w := w.emit (.log r.Log .debug "(STUN) Received BindingRequest from %s" [.addr r.SrcAddr])
  match E.AddrIPPort r.SrcAddr with
  | .error err =>
    let w := w.emit (.log r.Log .error "Failed to extract IP and Port from %s: %v"
      [.addr r.SrcAddr, .err err])
    (some err, w)
  | .ok (ip, port) =>
    let attrs := E.buildMsg m.TransactionID BindingSuccess
      [.xorMappedAddress ip port, .fingerprint]
    let w := w.emit (.log r.Log .debug "(STUN) Responding to BindingRequest from %s"
      [.addr r.SrcAddr])
    let w := w.emit (.send r.Conn r.SrcAddr attrs)
    let res := E.buildAndSend r.Conn r.SrcAddr attrs w.net
    (res.1, { w with net := res.2 })

/-! ## `server.go` -/

/-- The function `getMessageHandler` (server.go:93-122); the two components are
the two results of the Go function, `none` standing for `nil`. -/
def getMessageHandler (cls : Nat) (method : Nat) : Option HandlerName × Option GoError :=
  if cls = ClassIndication then
    if method = MethodSend then (some .handleSendIndication, none)
    else (none, some (.errorf "%w: %s" .errUnexpectedMethod [.method method]))
  else if cls = ClassRequest then
    if method = MethodAllocate then (some .handleAllocateRequest, none)
    else if method = MethodRefresh then (some .handleRefreshRequest, none)
    else if method = MethodCreatePermission then (some .handleCreatePermissionRequest, none)
    else if method = MethodChannelBind then (some .handleChannelBindRequest, none)
    else if method = MethodBinding then (some .handleBindingRequest, none)
    else (none, some (.errorf "%w: %s" .errUnexpectedMethod [.method method]))
  else (none, some (.errorf "%w: %s" .errUnexpectedClass [.cls cls]))

/-- The call `h(r, m)` of a handler value returned by `getMessageHandler`. -/
def HandlerName.call {σ ν : Type} (E : Env σ ν) (h : HandlerName) (r : Request)
    (m : Message) (w : World σ ν) : Option GoError × World σ ν :=
  match h with
  | .handleSendIndication => w.run (E.handleSendIndication r m)
  | .handleAllocateRequest => w.run (E.handleAllocateRequest r m)
  | .handleRefreshRequest => w.run (E.handleRefreshRequest r m)
  | .handleCreatePermissionRequest => w.run (E.handleCreatePermissionRequest r m)
  | .handleChannelBindRequest => w.run (E.handleChannelBindRequest r m)
  | .handleBindingRequest => server.handleBindingRequest E r m w

/-- The function `handleTURNPacket` (server.go:73-91).  Calling a nil function
value is a run-time panic in Go. -/
def handleTURNPacket {σ ν : Type} (E : Env σ ν) (r : Request)
    (w : World σ ν) : Outcome × World σ ν :=
  let w := w.emit (.log r.Log .debug "Handling TURN/STUN packet" [])
  match E.decodeSTUN r.Buff with
  | .error err =>
    (.returned (some (.errorfCause "%w: %v" .errFailedToCreateSTUNPacket [] err)), w)
  | .ok m =>
    match getMessageHandler m.Typ.Class m.Typ.Method with
    | (_, some err) =>
      (.returned (some (.errorfCause "%w %v-%v from %v: %v" .errUnhandledSTUNPacket
        [.method m.Typ.Method, .cls m.Typ.Class, .addr r.SrcAddr] err)), w)
    | (none, none) => (.panicked "invalid memory address or nil pointer dereference", w)
    | (some h, none) =>
      let w := w.emit (.handler h m)
      match h.call E r m w with
      | (some err, w) =>
        (.returned (some (.errorfCause "%w %v-%v from %v: %v" .errFailedToHandle
          [.method m.Typ.Method, .cls m.Typ.Class, .addr r.SrcAddr] err)), w)
      | (none, w) => (.returned none, w)

/-- The function `handleDataPacket` (server.go:58-71). -/
def handleDataPacket {σ ν : Type} (E : Env σ ν) (r : Request)
    (w : World σ ν) : Option GoError × World σ ν :=
  let w := w.emit (.log r.Log .debug "Received DataPacket from %s" [.addr r.SrcAddr])
  match E.decodeChannelData r.Buff with
  | .error err => (some (.errorfCause "%w: %v" .errFailedToCreateChannelData [] err), w)
  | .ok c =>
    let w := w.emit (.channelData c)
    match w.run (E.handleChannelData r c) with
    | (some err, w) =>
      (some (.errorfCause "%w from %v: %v" .errUnableToHandleChannelData
        [.addr r.SrcAddr] err), w)
    | (none, w) => (none, w)

/-- The function `HandleRequest` (server.go:37-56). -/
def HandleRequest {σ ν : Type} (E : Env σ ν) (r : Request)
    (w : World σ ν) : Outcome × World σ ν :=
  let w := w.emit (.log r.Log .debug "----------- New Request -----------" [])
  match sliceTo r.SrcAddr.str 3 with
  | none => (.panicked "slice bounds out of range", w)
  | some p =>
    let w :=
      if p = [0x31, 0x38, 0x38] then w.emit (.log r.Log .debug "FROM JUNINHO" [])
      else w.emit (.log r.Log .debug "FROM MARUCS" [])
    let w := w.emit (.log r.Log .debug "Received %d bytes of udp from %s on %s"
      [.int r.Buff.length, .addr r.SrcAddr, .addr r.Conn.LocalAddr])
    let res : Outcome × World σ ν :=
      if E.IsChannelData r.Buff then
        let d := handleDataPacket E r w
        (.returned d.1, d.2)
      else handleTURNPacket E r w
    match res with
    | (.panicked reason, w) => (.panicked reason, w)
    | (.returned err, w) =>
      let w := w.emit (.log r.Log .debug "----------- End Request -----------" [])
      (.returned err, w)

/-- Shape of a run: the result, the store and the sockets reached from `w` do
not depend on the record of `w`, and the record only grows. -/
def Framed {σ ν : Type} {α : Type} (f : World σ ν → α × World σ ν) : Prop :=
  ∀ (w : World σ ν) (t : List Event),
    f (w.withTrace t) = ((f w).1, (f w).2.withTrace (t ++ (f w).2.since w)) ∧
    (f w).2.trace = w.trace ++ (f w).2.since w

/-! ## The routing table of the specification -/

/-- The routing table as the specification lists it (section 4.1): class,
method and the handler of the row. -/
def specRoutingTable : List (Nat × Nat × HandlerName) :=
  [ (ClassIndication, MethodSend, .handleSendIndication),
    (ClassRequest, MethodAllocate, .handleAllocateRequest),
    (ClassRequest, MethodRefresh, .handleRefreshRequest),
    (ClassRequest, MethodCreatePermission, .handleCreatePermissionRequest),
    (ClassRequest, MethodChannelBind, .handleChannelBindRequest),
    (ClassRequest, MethodBinding, .handleBindingRequest) ]

/-- The (class, method) pairs that have a row in the table. -/
def routedPairs : List (Nat × Nat) :=
  specRoutingTable.map (fun row => (row.1, row.2.1))

/-! ## Stand-in collaborators and sample inputs

The theorems below hold for every `Env`.  The definitions of this section are
one small instance, used to evaluate the functions on concrete datagrams. -/

/-- The bytes of an ASCII text. -/
def ascii (s : String) : Bytes := s.toList.map (fun c => c.toNat)

/-- Stand-in for `proto.IsChannelData`: the first byte is in `0x40..0x7F`. -/
def sampleIsChannelData : Bytes → Bool
  | b :: _ => decide (0x40 ≤ b ∧ b < 0x80)
  | [] => false

/-- Stand-in ChannelData decoder: two bytes of channel number, two bytes of
length (ignored), then the payload. -/
def sampleDecodeChannelData : Bytes → Except GoError ChannelData
  | hi :: lo :: _ :: _ :: data =>
    .ok { Data := data, Number := hi * 256 + lo, Raw := hi :: lo :: data }
  | _ => .error (.foreign 1)

/-- Stand-in STUN decoder: one byte of class (below 4), one byte of method,
then the transaction ID. -/
def sampleDecodeSTUN : Bytes → Except GoError Message
  | c :: k :: tid =>
    if c < 4 then
      .ok { Typ := { Method := k, Class := c }, TransactionID := tid,
            Attributes := [], Raw := c :: k :: tid }
    else .error (.foreign 2)
  | _ => .error (.foreign 2)

/-- Stand-in for `ipnet.AddrIPPort`: it knows the address `10.0.0.7:5000`. -/
def sampleAddrIPPort (a : Addr) : Except GoError (Bytes × Int) :=
  if a.str = ascii "10.0.0.7:5000" then .ok ([10, 0, 0, 7], 5000) else .error (.foreign 3)

/-- The sockets of the stand-in: the datagrams written so far. -/
abbrev SampleNet := List (Conn × Addr × List Setter)

/-- The stand-in collaborators.  The store is a counter of handled requests. -/
def sampleEnv : Env Nat SampleNet where
  IsChannelData := sampleIsChannelData
  decodeChannelData := sampleDecodeChannelData
  decodeSTUN := sampleDecodeSTUN
  AddrIPPort := sampleAddrIPPort
  buildMsg := fun tid t additional => .transactionID tid :: .msgType t :: additional
  buildAndSend := fun conn dst attrs net => (none, net ++ [(conn, dst, attrs)])
  handleChannelData := fun _ c s =>
    if c.Number < 0x4000 then (some (.foreign 4), s) else (none, (s.1 + 1, s.2))
  handleSendIndication := fun _ _ s => (none, (s.1 + 1, s.2))
  handleAllocateRequest := fun _ _ s => (some (.foreign 5), (s.1 + 1, s.2))
  handleRefreshRequest := fun _ _ s => (none, (s.1 + 1, s.2))
  handleCreatePermissionRequest := fun _ _ s => (none, (s.1 + 1, s.2))
  handleChannelBindRequest := fun _ _ s => (none, (s.1 + 1, s.2))

/-- The listening socket of the samples. -/
def sampleConn : Conn :=
  { handle := 1, LocalAddr := { network := ascii "udp", str := ascii "0.0.0.0:3478" } }

/-- A request from `10.0.0.7:5000` carrying `buff`. -/
def sampleRequest (buff : Bytes) : Request where
  Conn := sampleConn
  SrcAddr := { network := ascii "udp", str := ascii "10.0.0.7:5000" }
  Buff := buff
  AllocationManager := 0
  NonceHash := 0
  AuthHandler := fun _ _ _ => ([], false)
  Log := { handle := 0 }
  Realm := ascii "pion.ly"
  ChannelBindTimeout := 600000000000

/-- The sample request with another source address text. -/
def sampleRequestFrom (src : Bytes) (buff : Bytes) : Request :=
  { sampleRequest buff with SrcAddr := { network := ascii "udp", str := src } }

/-- A request from the same source on the same socket as `sampleRequest`, with
other server state and other user configuration. -/
def sampleRequestOther (buff : Bytes) : Request where
  Conn := sampleConn
  SrcAddr := { network := ascii "udp", str := ascii "10.0.0.7:5000" }
  Buff := buff
  AllocationManager := 4
  NonceHash := 5
  AuthHandler := fun username _ _ => (username, true)
  Log := { handle := 6 }
  Realm := ascii "example.org"
  ChannelBindTimeout := 1

/-- A world with a store and a record of its own, on the sockets of `world0`. -/
def world1 : World Nat SampleNet :=
  { trace := [.log { handle := 6 } .debug "earlier" []], store := 41, net := [] }

/-- The world before the first datagram. -/
def world0 : World Nat SampleNet := { trace := [], store := 0, net := [] }

/-! ## Routing -/

/-- C1: `getMessageHandler` implements the routing table exactly: on each of
the six rows it returns the row's handler and no error, and whenever it returns
a handler, the (class, method, handler) triple is a row of the table and no
error comes with it. -/
theorem getMessageHandler_implements_table :
    (getMessageHandler ClassIndication MethodSend = (some .handleSendIndication, none) ∧
     getMessageHandler ClassRequest MethodAllocate = (some .handleAllocateRequest, none) ∧
     getMessageHandler ClassRequest MethodRefresh = (some .handleRefreshRequest, none) ∧
     getMessageHandler ClassRequest MethodCreatePermission
       = (some .handleCreatePermissionRequest, none) ∧
     getMessageHandler ClassRequest MethodChannelBind = (some .handleChannelBindRequest, none) ∧
     getMessageHandler ClassRequest MethodBinding = (some .handleBindingRequest, none)) ∧
    (∀ row ∈ specRoutingTable, getMessageHandler row.1 row.2.1 = (some row.2.2, none)) ∧
    (∀ (cls method : Nat) (h : HandlerName), (getMessageHandler cls method).1 = some h →
      (cls, method, h) ∈ specRoutingTable ∧ (getMessageHandler cls method).2 = none) := by
  refine ⟨by decide, by decide, ?_⟩
  intro cls method h hh
  unfold getMessageHandler at hh ⊢
  split_ifs at hh ⊢ <;> simp_all [specRoutingTable]

/-- Every call of `getMessageHandler` ends in one of two ways: a handler with no
error, for a routed pair, or an error with no handler, for any other pair. -/
theorem getMessageHandler_cases (cls method : Nat) :
    (∃ h, getMessageHandler cls method = (some h, none) ∧ (cls, method) ∈ routedPairs) ∨
    (∃ e, getMessageHandler cls method = (none, some e) ∧ (cls, method) ∉ routedPairs ∧
      (e = .errorf "%w: %s" .errUnexpectedMethod [.method method] ∨
       e = .errorf "%w: %s" .errUnexpectedClass [.cls cls])) := by
  unfold getMessageHandler
  split_ifs <;>
    simp_all [routedPairs, specRoutingTable, ClassIndication, ClassRequest, MethodSend,
      MethodAllocate, MethodRefresh, MethodCreatePermission, MethodChannelBind, MethodBinding]

/-- The world `handleTURNPacket` reaches when the routing fails. -/
theorem handleTURNPacket_of_routing_error {σ ν : Type} (E : Env σ ν) (r : Request)
    (w : World σ ν) (m : Message) (e : GoError)
    (hdec : E.decodeSTUN r.Buff = .ok m)
    (hroute : getMessageHandler m.Typ.Class m.Typ.Method = (none, some e)) :
    handleTURNPacket E r w =
      (.returned (some (.errorfCause "%w %v-%v from %v: %v" .errUnhandledSTUNPacket
        [.method m.Typ.Method, .cls m.Typ.Class, .addr r.SrcAddr] e)),
       w.emit (.log r.Log .debug "Handling TURN/STUN packet" [])) := by
  simp [handleTURNPacket, hdec, hroute]

/-- The world `handleTURNPacket` reaches when the decoding fails. -/
theorem handleTURNPacket_of_decode_error {σ ν : Type} (E : Env σ ν) (r : Request)
    (w : World σ ν) (err : GoError) (hdec : E.decodeSTUN r.Buff = .error err) :
    handleTURNPacket E r w =
      (.returned (some (.errorfCause "%w: %v" .errFailedToCreateSTUNPacket [] err)),
       w.emit (.log r.Log .debug "Handling TURN/STUN packet" [])) := by
  simp [handleTURNPacket, hdec]

/-- The result of `handleTURNPacket` when a handler is routed. -/
theorem handleTURNPacket_of_route {σ ν : Type} (E : Env σ ν) (r : Request)
    (w : World σ ν) (m : Message) (h : HandlerName)
    (hdec : E.decodeSTUN r.Buff = .ok m)
    (hroute : getMessageHandler m.Typ.Class m.Typ.Method = (some h, none)) :
    handleTURNPacket E r w =
      (.returned ((h.call E r m
          ((w.emit (.log r.Log .debug "Handling TURN/STUN packet" [])).emit (.handler h m))).1.map
          (fun err => .errorfCause "%w %v-%v from %v: %v" .errFailedToHandle
            [.method m.Typ.Method, .cls m.Typ.Class, .addr r.SrcAddr] err)),
       (h.call E r m
          ((w.emit (.log r.Log .debug "Handling TURN/STUN packet" [])).emit (.handler h m))).2) := by
  simp only [handleTURNPacket, hdec, hroute]
  rcases h.call E r m
    ((w.emit (.log r.Log .debug "Handling TURN/STUN packet" [])).emit (.handler h m))
    with ⟨_ | err, w2⟩ <;> rfl

/-- The world `handleDataPacket` reaches when the decoding fails. -/
theorem handleDataPacket_of_decode_error {σ ν : Type} (E : Env σ ν) (r : Request)
    (w : World σ ν) (err : GoError) (hdec : E.decodeChannelData r.Buff = .error err) :
    handleDataPacket E r w =
      (some (.errorfCause "%w: %v" .errFailedToCreateChannelData [] err),
       w.emit (.log r.Log .debug "Received DataPacket from %s" [.addr r.SrcAddr])) := by
  simp [handleDataPacket, hdec]

/-- The result of `handleDataPacket` when the decoding succeeds. -/
theorem handleDataPacket_of_decoded {σ ν : Type} (E : Env σ ν) (r : Request)
    (w : World σ ν) (c : ChannelData) (hdec : E.decodeChannelData r.Buff = .ok c) :
    handleDataPacket E r w =
      ((E.handleChannelData r c (w.store, w.net)).1.map
          (fun err => .errorfCause "%w from %v: %v" .errUnableToHandleChannelData
            [.addr r.SrcAddr] err),
       { trace := w.trace ++ [.log r.Log .debug "Received DataPacket from %s" [.addr r.SrcAddr],
           .channelData c],
         store := (E.handleChannelData r c (w.store, w.net)).2.1,
         net := (E.handleChannelData r c (w.store, w.net)).2.2 }) := by
  simp only [handleDataPacket, hdec, World.run, World.emit]
  rcases E.handleChannelData r c (w.store, w.net) with ⟨_ | err, s, n⟩ <;> simp

/-! ## Records of calls -/

/-- The events recorded by `emit` since the world it started from. -/
theorem since_emit {σ ν : Type} (w : World σ ν) (e : Event) :
    (w.emit e).since w = [e] := by
  simp [World.since, World.emit]

/-- A world whose record extends that of `w` by `evs` has `evs` since `w`. -/
theorem since_of_trace {σ ν : Type} (w2 w : World σ ν) (evs : List Event)
    (h : w2.trace = w.trace ++ evs) : w2.since w = evs := by
  simp [World.since, h]

/-- The run of `handleBindingRequest` is framed. -/
theorem handleBindingRequest_framed {σ ν : Type} (E : Env σ ν) (r : Request) (m : Message) :
    Framed (handleBindingRequest E r m) := by
  intro w t
  unfold handleBindingRequest
  rcases h : E.AddrIPPort r.SrcAddr with err | ⟨ip, port⟩ <;>
    simp [World.emit, World.withTrace, World.since]

/-- The run of a collaborator on the store and the sockets is framed. -/
theorem run_framed {σ ν : Type} (f : σ × ν → Option GoError × (σ × ν)) :
    Framed (fun w : World σ ν => w.run f) := by
  intro w t
  simp [World.run, World.withTrace, World.since]

/-- The call of a routed handler is framed. -/
theorem call_framed {σ ν : Type} (E : Env σ ν) (h : HandlerName) (r : Request) (m : Message) :
    Framed (h.call E r m) := by
  cases h
  case handleBindingRequest => exact handleBindingRequest_framed E r m
  all_goals exact run_framed _

/-- Replacing the record of a world by itself changes nothing. -/
theorem withTrace_self {σ ν : Type} (w : World σ ν) : w.withTrace w.trace = w := by
  cases w; rfl

/-- A run that, from each store and sockets, is one result, one list of new
events, one store and one sockets, whatever the record, is framed. -/
theorem framed_of_shape {σ ν : Type} {α : Type} (f : World σ ν → α × World σ ν)
    (h : ∀ w : World σ ν, ∃ (a : α) (evs : List Event) (s : σ) (n : ν),
      ∀ t : List Event, f (w.withTrace t) = (a, { trace := t ++ evs, store := s, net := n })) :
    Framed f := by
  intro w t
  obtain ⟨a, evs, s, n, H⟩ := h w
  have hw : f w = (a, { trace := w.trace ++ evs, store := s, net := n }) := by
    have := H w.trace
    rwa [withTrace_self] at this
  rw [H t, hw]
  simp [World.withTrace, World.since]

/-- A framed run has a shape. -/
theorem shape_of_framed {σ ν : Type} {α : Type} (f : World σ ν → α × World σ ν)
    (h : Framed f) (w : World σ ν) :
    ∀ t : List Event, f (w.withTrace t) =
      ((f w).1, { trace := t ++ (f w).2.since w, store := (f w).2.store, net := (f w).2.net }) := by
  intro t
  rw [(h w t).1]
  rfl

/-- Two `emit`s on a world with a replaced record. -/
theorem withTrace_emit_emit {σ ν : Type} (w : World σ ν) (t : List Event) (a b : Event) :
    ((w.withTrace t).emit a).emit b = w.withTrace (t ++ [a, b]) := by
  simp [World.emit, World.withTrace]

/-- The run of `handleTURNPacket` is framed. -/
theorem handleTURNPacket_framed {σ ν : Type} (E : Env σ ν) (r : Request) :
    Framed (handleTURNPacket E r) := by
  apply framed_of_shape
  intro w
  rcases hdec : E.decodeSTUN r.Buff with err | m
  · refine ⟨.returned (some (.errorfCause "%w: %v" .errFailedToCreateSTUNPacket [] err)),
      [.log r.Log .debug "Handling TURN/STUN packet" []], w.store, w.net, fun t => ?_⟩
    rw [handleTURNPacket_of_decode_error E r _ err hdec]
    rfl
  · rcases getMessageHandler_cases m.Typ.Class m.Typ.Method with ⟨h, hh, _⟩ | ⟨e, he, _⟩
    · have H := shape_of_framed _ (call_framed E h r m) w
      refine ⟨.returned ((h.call E r m w).1.map
          (fun err => .errorfCause "%w %v-%v from %v: %v" .errFailedToHandle
            [.method m.Typ.Method, .cls m.Typ.Class, .addr r.SrcAddr] err)),
        .log r.Log .debug "Handling TURN/STUN packet" [] :: .handler h m
          :: (h.call E r m w).2.since w,
        (h.call E r m w).2.store, (h.call E r m w).2.net, fun t => ?_⟩
      rw [handleTURNPacket_of_route E r _ m h hdec hh, withTrace_emit_emit, H]
      simp
    · refine ⟨.returned (some (.errorfCause "%w %v-%v from %v: %v" .errUnhandledSTUNPacket
          [.method m.Typ.Method, .cls m.Typ.Class, .addr r.SrcAddr] e)),
        [.log r.Log .debug "Handling TURN/STUN packet" []], w.store, w.net, fun t => ?_⟩
      rw [handleTURNPacket_of_routing_error E r _ m e hdec he]
      rfl

/-- The run of `handleDataPacket` is framed. -/
theorem handleDataPacket_framed {σ ν : Type} (E : Env σ ν) (r : Request) :
    Framed (handleDataPacket E r) := by
  apply framed_of_shape
  intro w
  rcases hdec : E.decodeChannelData r.Buff with err | c
  · refine ⟨some (.errorfCause "%w: %v" .errFailedToCreateChannelData [] err),
      [.log r.Log .debug "Received DataPacket from %s" [.addr r.SrcAddr]], w.store, w.net,
      fun t => ?_⟩
    rw [handleDataPacket_of_decode_error E r _ err hdec]
    rfl
  · refine ⟨(E.handleChannelData r c (w.store, w.net)).1.map
          (fun err => .errorfCause "%w from %v: %v" .errUnableToHandleChannelData
            [.addr r.SrcAddr] err),
        [.log r.Log .debug "Received DataPacket from %s" [.addr r.SrcAddr], .channelData c],
        (E.handleChannelData r c (w.store, w.net)).2.1,
        (E.handleChannelData r c (w.store, w.net)).2.2, fun t => ?_⟩
    rw [handleDataPacket_of_decoded E r _ c hdec]
    rfl

/-- What `handleBindingRequest` does when the source address has no IP and port. -/
theorem handleBindingRequest_of_addr_error {σ ν : Type} (E : Env σ ν) (r : Request)
    (m : Message) (w : World σ ν) (err : GoError)
    (haddr : E.AddrIPPort r.SrcAddr = .error err) :
    handleBindingRequest E r m w =
      (some err,
       { w with trace := w.trace ++
          [.log r.Log .debug "(STUN) Received BindingRequest from %s" [.addr r.SrcAddr],
           .log r.Log .error "Failed to extract IP and Port from %s: %v"
             [.addr r.SrcAddr, .err err]] }) := by
  simp [handleBindingRequest, haddr, World.emit]

/-- What `handleBindingRequest` does when the source address has an IP and port. -/
theorem handleBindingRequest_of_addr {σ ν : Type} (E : Env σ ν) (r : Request)
    (m : Message) (w : World σ ν) (ip : Bytes) (port : Int)
    (haddr : E.AddrIPPort r.SrcAddr = .ok (ip, port)) :
    handleBindingRequest E r m w =
      ((E.buildAndSend r.Conn r.SrcAddr
          (E.buildMsg m.TransactionID BindingSuccess [.xorMappedAddress ip port, .fingerprint])
          w.net).1,
       { trace := w.trace ++
          [.log r.Log .debug "(STUN) Received BindingRequest from %s" [.addr r.SrcAddr],
           .log r.Log .debug "(STUN) Responding to BindingRequest from %s" [.addr r.SrcAddr],
           .send r.Conn r.SrcAddr
             (E.buildMsg m.TransactionID BindingSuccess
               [.xorMappedAddress ip port, .fingerprint])],
         store := w.store,
         net := (E.buildAndSend r.Conn r.SrcAddr
          (E.buildMsg m.TransactionID BindingSuccess [.xorMappedAddress ip port, .fingerprint])
          w.net).2 }) := by
  simp [handleBindingRequest, haddr, World.emit]

/-- The function `handleBindingRequest` invokes no request handler and leaves
the store as it is. -/
theorem handleBindingRequest_quiet {σ ν : Type} (E : Env σ ν) (r : Request)
    (m : Message) (w : World σ ν) :
    (∀ ev ∈ (handleBindingRequest E r m w).2.since w, ev.isInvocation = false) ∧
    (handleBindingRequest E r m w).2.store = w.store := by
  rcases haddr : E.AddrIPPort r.SrcAddr with err | ⟨ip, port⟩
  · rw [handleBindingRequest_of_addr_error E r m w err haddr]
    refine ⟨?_, rfl⟩
    rw [since_of_trace _ w _ rfl]
    simp [Event.isInvocation]
  · rw [handleBindingRequest_of_addr E r m w ip port haddr]
    refine ⟨?_, rfl⟩
    rw [since_of_trace _ w _ rfl]
    simp [Event.isInvocation]

/-- The call of a routed handler records no further handler invocation. -/
theorem call_quiet {σ ν : Type} (E : Env σ ν) (h : HandlerName) (r : Request)
    (m : Message) (w : World σ ν) :
    ∀ ev ∈ (h.call E r m w).2.since w, ev.isInvocation = false := by
  cases h
  case handleBindingRequest => exact (handleBindingRequest_quiet E r m w).1
  all_goals simp [HandlerName.call, World.run, World.since]

/-- The three ways `handleTURNPacket` can go, with what each records. -/
theorem handleTURNPacket_cases {σ ν : Type} (E : Env σ ν) (r : Request) (w : World σ ν) :
    (∃ err, E.decodeSTUN r.Buff = .error err ∧
      handleTURNPacket E r w =
        (.returned (some (.errorfCause "%w: %v" .errFailedToCreateSTUNPacket [] err)),
         w.emit (.log r.Log .debug "Handling TURN/STUN packet" []))) ∨
    (∃ m e, E.decodeSTUN r.Buff = .ok m ∧
      getMessageHandler m.Typ.Class m.Typ.Method = (none, some e) ∧
      handleTURNPacket E r w =
        (.returned (some (.errorfCause "%w %v-%v from %v: %v" .errUnhandledSTUNPacket
          [.method m.Typ.Method, .cls m.Typ.Class, .addr r.SrcAddr] e)),
         w.emit (.log r.Log .debug "Handling TURN/STUN packet" []))) ∨
    (∃ m h, E.decodeSTUN r.Buff = .ok m ∧
      getMessageHandler m.Typ.Class m.Typ.Method = (some h, none) ∧
      (handleTURNPacket E r w).1 = .returned ((h.call E r m w).1.map
          (fun err => .errorfCause "%w %v-%v from %v: %v" .errFailedToHandle
            [.method m.Typ.Method, .cls m.Typ.Class, .addr r.SrcAddr] err)) ∧
      (handleTURNPacket E r w).2.store = (h.call E r m w).2.store ∧
      (handleTURNPacket E r w).2.net = (h.call E r m w).2.net ∧
      (handleTURNPacket E r w).2.since w =
        .log r.Log .debug "Handling TURN/STUN packet" [] :: .handler h m
          :: (h.call E r m w).2.since w) := by
  rcases hdec : E.decodeSTUN r.Buff with err | m
  · exact Or.inl ⟨err, rfl, handleTURNPacket_of_decode_error E r w err hdec⟩
  · rcases getMessageHandler_cases m.Typ.Class m.Typ.Method with ⟨h, hh, _⟩ | ⟨e, he, _⟩
    · refine Or.inr (Or.inr ⟨m, h, rfl, hh, ?_⟩)
      have H := shape_of_framed _ (call_framed E h r m) w
      have hw : ((w.emit (.log r.Log .debug "Handling TURN/STUN packet" [])).emit
          (.handler h m)) = w.withTrace (w.trace ++
            [.log r.Log .debug "Handling TURN/STUN packet" [], .handler h m]) := by
        simp [World.emit, World.withTrace]
      rw [handleTURNPacket_of_route E r w m h hdec hh, hw, H]
      refine ⟨rfl, rfl, rfl, ?_⟩
      apply since_of_trace
      simp
    · exact Or.inr (Or.inl ⟨m, e, rfl, he, handleTURNPacket_of_routing_error E r w m e hdec he⟩)

/-- The function `handleTURNPacket` always returns, invokes at most one request
handler and never `handleChannelData`. -/
theorem handleTURNPacket_invocations {σ ν : Type} (E : Env σ ν) (r : Request)
    (w : World σ ν) :
    (∃ res, (handleTURNPacket E r w).1 = .returned res) ∧
    ((handleTURNPacket E r w).2.since w).countP Event.isInvocation ≤ 1 ∧
    ((handleTURNPacket E r w).2.since w).countP Event.isChannelData = 0 := by
  rcases handleTURNPacket_cases E r w with ⟨err, _, h⟩ | ⟨m, e, _, _, h⟩ | ⟨m, h, _, _, h1, _, _, h4⟩
  · rw [h]
    refine ⟨⟨_, rfl⟩, ?_, ?_⟩ <;> rw [since_emit] <;> simp [Event.isInvocation, Event.isChannelData]
  · rw [h]
    refine ⟨⟨_, rfl⟩, ?_, ?_⟩ <;> rw [since_emit] <;> simp [Event.isInvocation, Event.isChannelData]
  · have hq := call_quiet E h r m w
    have hz : ((h.call E r m w).2.since w).countP Event.isInvocation = 0 := by
      rw [List.countP_eq_zero]
      intro ev hev
      simp [hq ev hev]
    have hz2 : ((h.call E r m w).2.since w).countP Event.isChannelData = 0 := by
      rw [List.countP_eq_zero]
      intro ev hev
      have := hq ev hev
      cases ev <;> simp_all [Event.isInvocation, Event.isChannelData]
    refine ⟨⟨_, h1⟩, ?_, ?_⟩
    · rw [h4]
      simp [List.countP_cons, Event.isInvocation, hz]
    · rw [h4]
      simp [List.countP_cons, Event.isChannelData, hz2]

/-- The function `handleDataPacket` invokes `handleChannelData` at most once
and no STUN handler. -/
theorem handleDataPacket_invocations {σ ν : Type} (E : Env σ ν) (r : Request)
    (w : World σ ν) :
    ((handleDataPacket E r w).2.since w).countP Event.isInvocation ≤ 1 ∧
    ((handleDataPacket E r w).2.since w).countP Event.isHandler = 0 := by
  rcases hdec : E.decodeChannelData r.Buff with err | c
  · rw [handleDataPacket_of_decode_error E r w err hdec, since_emit]
    simp [Event.isInvocation, Event.isHandler]
  · rw [handleDataPacket_of_decoded E r w c hdec, since_of_trace _ w _ rfl]
    simp [List.countP_cons, Event.isInvocation, Event.isHandler]

/-- C2: a (class, method) pair outside the routing table gets an error and no
handler from `getMessageHandler`; `handleTURNPacket` on a datagram decoding to
a message of that pair returns an error wrapping `errUnhandledSTUNPacket`, and
all it did is one logger call: no handler invoked, nothing sent, store and
sockets untouched.  Conversely, `getMessageHandler` returns an error only for
pairs outside the table, and then no handler. -/
theorem unrouted_pair_is_dropped (cls method : Nat) (hno : (cls, method) ∉ routedPairs) :
    (∃ e, getMessageHandler cls method = (none, some e)) ∧
    (∀ {σ ν : Type} (E : Env σ ν) (r : Request) (w : World σ ν) (m : Message),
      E.decodeSTUN r.Buff = .ok m → m.Typ = { Method := method, Class := cls } →
      ∃ e, (handleTURNPacket E r w).1 = .returned (some e) ∧
        e.Is .errUnhandledSTUNPacket = true ∧
        (handleTURNPacket E r w).2 = w.emit (.log r.Log .debug "Handling TURN/STUN packet" []) ∧
        (((handleTURNPacket E r w).2.since w).all
          (fun ev => !ev.isInvocation && !ev.isSend)) = true ∧
        (handleTURNPacket E r w).2.store = w.store ∧
        (handleTURNPacket E r w).2.net = w.net) ∧
    (∀ c k : Nat, (getMessageHandler c k).2 ≠ none →
      (c, k) ∉ routedPairs ∧ (getMessageHandler c k).1 = none) := by
  have key : ∃ e, getMessageHandler cls method = (none, some e) := by
    rcases getMessageHandler_cases cls method with ⟨h, _, hin⟩ | ⟨e, he, _⟩
    · exact absurd hin hno
    · exact ⟨e, he⟩
  refine ⟨key, ?_, ?_⟩
  · intro σ ν E r w m hdec hty
    obtain ⟨e, he⟩ := key
    have hroute : getMessageHandler m.Typ.Class m.Typ.Method = (none, some e) := by
      rw [hty]; exact he
    rw [handleTURNPacket_of_routing_error E r w m e hdec hroute]
    refine ⟨_, rfl, rfl, rfl, ?_, rfl, rfl⟩
    rw [since_emit]
    rfl
  · intro c k hk
    rcases getMessageHandler_cases c k with ⟨h, hh, _⟩ | ⟨e, he, hout, _⟩
    · rw [hh] at hk; exact absurd rfl hk
    · rw [he]; exact ⟨hout, rfl⟩

/-- C2 at a Send request: the pair is outside the table, the sample datagram
decodes to it, and `handleTURNPacket` drops it.  A Binding indication, an
Allocate indication, a success response and an error response get an error and
no handler as well. -/
theorem unrouted_pair_is_dropped_witness :
    (ClassRequest, MethodSend) ∉ routedPairs ∧
    sampleEnv.decodeSTUN (sampleRequest [0, 6, 1, 2, 3]).Buff
      = .ok { Typ := { Method := MethodSend, Class := ClassRequest }, TransactionID := [1, 2, 3],
              Attributes := [], Raw := [0, 6, 1, 2, 3] } ∧
    (∃ e, (handleTURNPacket sampleEnv (sampleRequest [0, 6, 1, 2, 3]) world0).1
        = .returned (some e) ∧
      e.Is .errUnhandledSTUNPacket = true ∧
      (handleTURNPacket sampleEnv (sampleRequest [0, 6, 1, 2, 3]) world0).2
        = world0.emit (.log (sampleRequest [0, 6, 1, 2, 3]).Log .debug
            "Handling TURN/STUN packet" []) ∧
      (((handleTURNPacket sampleEnv (sampleRequest [0, 6, 1, 2, 3]) world0).2.since world0).all
        (fun ev => !ev.isInvocation && !ev.isSend)) = true ∧
      (handleTURNPacket sampleEnv (sampleRequest [0, 6, 1, 2, 3]) world0).2.store = world0.store ∧
      (handleTURNPacket sampleEnv (sampleRequest [0, 6, 1, 2, 3]) world0).2.net = world0.net) ∧
    (∃ e, getMessageHandler ClassIndication MethodBinding = (none, some e)) ∧
    (∃ e, getMessageHandler ClassIndication MethodAllocate = (none, some e)) ∧
    (∃ e, getMessageHandler ClassSuccessResponse MethodAllocate = (none, some e)) ∧
    (∃ e, getMessageHandler ClassErrorResponse MethodBinding = (none, some e)) :=
  ⟨by decide, rfl,
    (unrouted_pair_is_dropped ClassRequest MethodSend (by decide)).2.1
      sampleEnv (sampleRequest [0, 6, 1, 2, 3]) world0 _ rfl rfl,
    (unrouted_pair_is_dropped ClassIndication MethodBinding (by decide)).1,
    (unrouted_pair_is_dropped ClassIndication MethodAllocate (by decide)).1,
    (unrouted_pair_is_dropped ClassSuccessResponse MethodAllocate (by decide)).1,
    (unrouted_pair_is_dropped ClassErrorResponse MethodBinding (by decide)).1⟩

/-- C3: when decoding fails, processing stops.  If the buffer fails STUN
decoding, `handleTURNPacket` returns an error wrapping
`errFailedToCreateSTUNPacket` and all it did is one logger call; if the buffer
fails ChannelData decoding, `handleDataPacket` returns an error wrapping
`errFailedToCreateChannelData` and all it did is one logger call.  In both
cases no handler is invoked, nothing is sent, and store and sockets are as
before, whatever the handlers are. -/
theorem decode_failure_stops_processing {σ ν : Type} (E : Env σ ν) (r : Request)
    (w : World σ ν) :
    (∀ err, E.decodeSTUN r.Buff = .error err →
      ∃ e, (handleTURNPacket E r w).1 = .returned (some e) ∧
        e.Is .errFailedToCreateSTUNPacket = true ∧
        (handleTURNPacket E r w).2 = w.emit (.log r.Log .debug "Handling TURN/STUN packet" []) ∧
        (∀ ev ∈ (handleTURNPacket E r w).2.since w,
          ev.isInvocation = false ∧ ev.isSend = false) ∧
        (handleTURNPacket E r w).2.store = w.store ∧
        (handleTURNPacket E r w).2.net = w.net) ∧
    (∀ err, E.decodeChannelData r.Buff = .error err →
      ∃ e, (handleDataPacket E r w).1 = some e ∧
        e.Is .errFailedToCreateChannelData = true ∧
        (handleDataPacket E r w).2
          = w.emit (.log r.Log .debug "Received DataPacket from %s" [.addr r.SrcAddr]) ∧
        (∀ ev ∈ (handleDataPacket E r w).2.since w,
          ev.isInvocation = false ∧ ev.isSend = false) ∧
        (handleDataPacket E r w).2.store = w.store ∧
        (handleDataPacket E r w).2.net = w.net) := by
  constructor
  · intro err hdec
    rw [handleTURNPacket_of_decode_error E r w err hdec]
    refine ⟨_, rfl, rfl, rfl, ?_, rfl, rfl⟩
    rw [since_emit]
    simp [Event.isInvocation, Event.isSend]
  · intro err hdec
    rw [handleDataPacket_of_decode_error E r w err hdec]
    refine ⟨_, rfl, rfl, rfl, ?_, rfl, rfl⟩
    rw [since_emit]
    simp [Event.isInvocation, Event.isSend]

/-- C3 at two sample datagrams: `[9, 1]` fails the stand-in STUN decoder and
`[0x40, 0]` fails the stand-in ChannelData decoder. -/
theorem decode_failure_stops_processing_witness :
    (sampleEnv.decodeSTUN (sampleRequest [9, 1]).Buff = .error (.foreign 2) ∧
      ∃ e, (handleTURNPacket sampleEnv (sampleRequest [9, 1]) world0).1 = .returned (some e) ∧
        e.Is .errFailedToCreateSTUNPacket = true ∧
        (handleTURNPacket sampleEnv (sampleRequest [9, 1]) world0).2
          = world0.emit (.log (sampleRequest [9, 1]).Log .debug "Handling TURN/STUN packet" []) ∧
        (∀ ev ∈ (handleTURNPacket sampleEnv (sampleRequest [9, 1]) world0).2.since world0,
          ev.isInvocation = false ∧ ev.isSend = false) ∧
        (handleTURNPacket sampleEnv (sampleRequest [9, 1]) world0).2.store = world0.store ∧
        (handleTURNPacket sampleEnv (sampleRequest [9, 1]) world0).2.net = world0.net) ∧
    (sampleEnv.decodeChannelData (sampleRequest [0x40, 0]).Buff = .error (.foreign 1) ∧
      ∃ e, (handleDataPacket sampleEnv (sampleRequest [0x40, 0]) world0).1 = some e ∧
        e.Is .errFailedToCreateChannelData = true ∧
        (handleDataPacket sampleEnv (sampleRequest [0x40, 0]) world0).2
          = world0.emit (.log (sampleRequest [0x40, 0]).Log .debug
              "Received DataPacket from %s" [.addr (sampleRequest [0x40, 0]).SrcAddr]) ∧
        (∀ ev ∈ (handleDataPacket sampleEnv (sampleRequest [0x40, 0]) world0).2.since world0,
          ev.isInvocation = false ∧ ev.isSend = false) ∧
        (handleDataPacket sampleEnv (sampleRequest [0x40, 0]) world0).2.store = world0.store ∧
        (handleDataPacket sampleEnv (sampleRequest [0x40, 0]) world0).2.net = world0.net) :=
  ⟨⟨rfl, (decode_failure_stops_processing sampleEnv (sampleRequest [9, 1]) world0).1 _ rfl⟩,
   ⟨rfl, (decode_failure_stops_processing sampleEnv (sampleRequest [0x40, 0]) world0).2 _ rfl⟩⟩

/-- C8: `handleTURNPacket` returns nil exactly when the buffer decodes as a STUN
message, its (class, method) has a route and the routed handler returns nil;
when the routed handler returns an error, `handleTURNPacket` returns an error
wrapping `errFailedToHandle`, which is neither the decode error nor the routing
error.  `handleDataPacket` returns nil exactly when ChannelData decoding
succeeds and `handleChannelData` returns nil, and an error of
`handleChannelData` comes back wrapped in `errUnableToHandleChannelData`.  The
handlers run on the store and the sockets of `w`: only logger calls come before
them. -/
theorem nil_result_conditions {σ ν : Type} (E : Env σ ν) (r : Request) (w : World σ ν) :
    ((handleTURNPacket E r w).1 = .returned none ↔
      ∃ m h, E.decodeSTUN r.Buff = .ok m ∧
        getMessageHandler m.Typ.Class m.Typ.Method = (some h, none) ∧
        (h.call E r m w).1 = none) ∧
    (∀ m h err, E.decodeSTUN r.Buff = .ok m →
      getMessageHandler m.Typ.Class m.Typ.Method = (some h, none) →
      (h.call E r m w).1 = some err →
      ∃ e, (handleTURNPacket E r w).1 = .returned (some e) ∧
        e = .errorfCause "%w %v-%v from %v: %v" .errFailedToHandle
          [.method m.Typ.Method, .cls m.Typ.Class, .addr r.SrcAddr] err ∧
        e.Is .errFailedToHandle = true ∧
        e.Is .errFailedToCreateSTUNPacket = false ∧
        e.Is .errUnhandledSTUNPacket = false) ∧
    ((handleDataPacket E r w).1 = none ↔
      ∃ c, E.decodeChannelData r.Buff = .ok c ∧
        (E.handleChannelData r c (w.store, w.net)).1 = none) ∧
    (∀ c err, E.decodeChannelData r.Buff = .ok c →
      (E.handleChannelData r c (w.store, w.net)).1 = some err →
      ∃ e, (handleDataPacket E r w).1 = some e ∧
        e = .errorfCause "%w from %v: %v" .errUnableToHandleChannelData [.addr r.SrcAddr] err ∧
        e.Is .errUnableToHandleChannelData = true) := by
  refine ⟨?_, ?_, ?_, ?_⟩
  · constructor
    · intro hnil
      rcases handleTURNPacket_cases E r w with ⟨err, _, h⟩ | ⟨m, e, _, _, h⟩ |
        ⟨m, h, hdec, hroute, h1, _⟩
      · rw [h] at hnil; simp at hnil
      · rw [h] at hnil; simp at hnil
      · refine ⟨m, h, hdec, hroute, ?_⟩
        rw [h1] at hnil
        simpa using hnil
    · rintro ⟨m, h, hdec, hroute, hnil⟩
      rcases handleTURNPacket_cases E r w with ⟨err, hdec2, _⟩ | ⟨m2, e, hdec2, hroute2, _⟩ |
        ⟨m2, h2, hdec2, hroute2, h1, _⟩
      · rw [hdec] at hdec2; cases hdec2
      · rw [hdec] at hdec2; cases hdec2
        rw [hroute] at hroute2; cases hroute2
      · rw [hdec] at hdec2; cases hdec2
        rw [hroute] at hroute2; cases hroute2
        rw [h1, hnil]; rfl
  · intro m h err hdec hroute herr
    rcases handleTURNPacket_cases E r w with ⟨err2, hdec2, _⟩ | ⟨m2, e, hdec2, hroute2, _⟩ |
      ⟨m2, h2, hdec2, hroute2, h1, _⟩
    · rw [hdec] at hdec2; cases hdec2
    · rw [hdec] at hdec2; cases hdec2
      rw [hroute] at hroute2; cases hroute2
    · rw [hdec] at hdec2; cases hdec2
      rw [hroute] at hroute2; cases hroute2
      rw [h1, herr]
      exact ⟨_, rfl, rfl, rfl, rfl, rfl⟩
  · constructor
    · intro hnil
      rcases hdec : E.decodeChannelData r.Buff with err | c
      · rw [handleDataPacket_of_decode_error E r w err hdec] at hnil; simp at hnil
      · rw [handleDataPacket_of_decoded E r w c hdec] at hnil
        exact ⟨c, rfl, by simpa using hnil⟩
    · rintro ⟨c, hdec, hnil⟩
      rw [handleDataPacket_of_decoded E r w c hdec, hnil]; rfl
  · intro c err hdec herr
    rw [handleDataPacket_of_decoded E r w c hdec, herr]
    exact ⟨_, rfl, rfl, rfl⟩

/-- C8 at a sample Allocate request, whose stand-in handler fails: the error
comes back wrapped in `errFailedToHandle`. -/
theorem nil_result_conditions_witness :
    ∃ e, (handleTURNPacket sampleEnv (sampleRequest [0, 3, 7]) world0).1 = .returned (some e) ∧
      e = .errorfCause "%w %v-%v from %v: %v" .errFailedToHandle
        [.method 3, .cls 0, .addr (sampleRequest [0, 3, 7]).SrcAddr] (.foreign 5) ∧
      e.Is .errFailedToHandle = true ∧
      e.Is .errFailedToCreateSTUNPacket = false ∧
      e.Is .errUnhandledSTUNPacket = false :=
  (nil_result_conditions sampleEnv (sampleRequest [0, 3, 7]) world0).2.1
    { Typ := { Method := 3, Class := 0 }, TransactionID := [7], Attributes := [],
      Raw := [0, 3, 7] }
    .handleAllocateRequest (.foreign 5) rfl rfl rfl

/-! ## Binding -/

/-- C6: for a Binding request whose source address yields an IP and a port,
`handleBindingRequest` makes exactly one send, on the request's connection to
the request's source address, of the message `buildMsg` builds from the
request's transaction ID, the Binding success type, an XOR-MAPPED-ADDRESS with
that IP and port, and a fingerprint; its result is the result of that send. -/
theorem binding_success_response {σ ν : Type} (E : Env σ ν) (r : Request) (m : Message)
    (w : World σ ν) (ip : Bytes) (port : Int)
    (haddr : E.AddrIPPort r.SrcAddr = .ok (ip, port)) :
    ((handleBindingRequest E r m w).2.since w).filter Event.isSend =
      [.send r.Conn r.SrcAddr
        (E.buildMsg m.TransactionID
          { Method := MethodBinding, Class := ClassSuccessResponse }
          [.xorMappedAddress ip port, .fingerprint])] ∧
    (handleBindingRequest E r m w).1 =
      (E.buildAndSend r.Conn r.SrcAddr
        (E.buildMsg m.TransactionID
          { Method := MethodBinding, Class := ClassSuccessResponse }
          [.xorMappedAddress ip port, .fingerprint]) w.net).1 ∧
    (handleBindingRequest E r m w).2.net =
      (E.buildAndSend r.Conn r.SrcAddr
        (E.buildMsg m.TransactionID
          { Method := MethodBinding, Class := ClassSuccessResponse }
          [.xorMappedAddress ip port, .fingerprint]) w.net).2 ∧
    (handleBindingRequest E r m w).2.store = w.store := by
  rw [handleBindingRequest_of_addr E r m w ip port haddr, since_of_trace _ w _ rfl]
  refine ⟨?_, rfl, rfl, rfl⟩
  simp [List.filter, Event.isSend, BindingSuccess]

/-- C6 at the sample Binding request from `10.0.0.7:5000`. -/
theorem binding_success_response_witness :
    sampleEnv.AddrIPPort (sampleRequest [0, 1, 1, 2, 3]).SrcAddr = .ok ([10, 0, 0, 7], 5000) ∧
    ((handleBindingRequest sampleEnv (sampleRequest [0, 1, 1, 2, 3])
        { Typ := { Method := 1, Class := 0 }, TransactionID := [1, 2, 3], Attributes := [],
          Raw := [0, 1, 1, 2, 3] } world0).2.since world0).filter Event.isSend =
      [.send sampleConn (sampleRequest [0, 1, 1, 2, 3]).SrcAddr
        [.transactionID [1, 2, 3], .msgType { Method := 1, Class := 2 },
         .xorMappedAddress [10, 0, 0, 7] 5000, .fingerprint]] :=
  ⟨rfl,
   (binding_success_response sampleEnv (sampleRequest [0, 1, 1, 2, 3])
      { Typ := { Method := 1, Class := 0 }, TransactionID := [1, 2, 3], Attributes := [],
        Raw := [0, 1, 1, 2, 3] } world0 [10, 0, 0, 7] 5000 rfl).1⟩

/-- C9: if `ipnet.AddrIPPort` fails on the source address, `handleBindingRequest`
returns that error itself, records two logger calls and no send, and leaves the
store and the sockets as they are. -/
theorem binding_address_failure {σ ν : Type} (E : Env σ ν) (r : Request) (m : Message)
    (w : World σ ν) (err : GoError) (haddr : E.AddrIPPort r.SrcAddr = .error err) :
    (handleBindingRequest E r m w).1 = some err ∧
    (handleBindingRequest E r m w).2.since w =
      [.log r.Log .debug "(STUN) Received BindingRequest from %s" [.addr r.SrcAddr],
       .log r.Log .error "Failed to extract IP and Port from %s: %v"
         [.addr r.SrcAddr, .err err]] ∧
    ((handleBindingRequest E r m w).2.since w).filter Event.isSend = [] ∧
    (handleBindingRequest E r m w).2.net = w.net ∧
    (handleBindingRequest E r m w).2.store = w.store := by
  rw [handleBindingRequest_of_addr_error E r m w err haddr, since_of_trace _ w _ rfl]
  refine ⟨rfl, rfl, ?_, rfl, rfl⟩
  simp [List.filter, Event.isSend]

/-- C9 at a sample request whose source address the stand-in for
`ipnet.AddrIPPort` rejects. -/
theorem binding_address_failure_witness :
    sampleEnv.AddrIPPort (sampleRequestFrom (ascii "pipe") [0, 1, 9]).SrcAddr
      = .error (.foreign 3) ∧
    (handleBindingRequest sampleEnv (sampleRequestFrom (ascii "pipe") [0, 1, 9])
      { Typ := { Method := 1, Class := 0 }, TransactionID := [9], Attributes := [],
        Raw := [0, 1, 9] } world0).1 = some (.foreign 3) ∧
    ((handleBindingRequest sampleEnv (sampleRequestFrom (ascii "pipe") [0, 1, 9])
      { Typ := { Method := 1, Class := 0 }, TransactionID := [9], Attributes := [],
        Raw := [0, 1, 9] } world0).2.since world0).filter Event.isSend = [] :=
  ⟨rfl,
   (binding_address_failure sampleEnv (sampleRequestFrom (ascii "pipe") [0, 1, 9])
      { Typ := { Method := 1, Class := 0 }, TransactionID := [9], Attributes := [],
        Raw := [0, 1, 9] } world0 (.foreign 3) rfl).1,
   (binding_address_failure sampleEnv (sampleRequestFrom (ascii "pipe") [0, 1, 9])
      { Typ := { Method := 1, Class := 0 }, TransactionID := [9], Attributes := [],
        Raw := [0, 1, 9] } world0 (.foreign 3) rfl).2.2.1⟩

/-- C7: Binding is stateless and unauthenticated.  Two requests that agree on
`Conn`, `SrcAddr` and the transaction ID, run on the same sockets, give the same
result, the same sends and the same sockets afterwards, whatever their other
fields (`AllocationManager`, `NonceHash`, `AuthHandler`, `Realm`,
`ChannelBindTimeout`, `Log`, `Buff`), the other parts of the message and the
store are; each run leaves the store as it found it.  The whole record of calls
of a run is fixed by `Log`, `Conn`, `SrcAddr`, the transaction ID and what
`ipnet.AddrIPPort` gives for `SrcAddr`: two logger calls whose operands are the
source address and that error, or two logger calls on the source address and
the one send.  No call has an operand taken from `AuthHandler`, the nonce
registry, the realm, the store or another attribute, so the two records are
equal up to the logger that receives them, and equal when the loggers are. -/
theorem binding_is_stateless {σ ν : Type} (E : Env σ ν) (r1 r2 : Request) (m1 m2 : Message)
    (w1 w2 : World σ ν)
    (hconn : r1.Conn = r2.Conn) (hsrc : r1.SrcAddr = r2.SrcAddr)
    (htid : m1.TransactionID = m2.TransactionID) (hnet : w1.net = w2.net) :
    (handleBindingRequest E r1 m1 w1).1 = (handleBindingRequest E r2 m2 w2).1 ∧
    ((handleBindingRequest E r1 m1 w1).2.since w1).filter Event.isSend =
      ((handleBindingRequest E r2 m2 w2).2.since w2).filter Event.isSend ∧
    (handleBindingRequest E r1 m1 w1).2.net = (handleBindingRequest E r2 m2 w2).2.net ∧
    (handleBindingRequest E r1 m1 w1).2.store = w1.store ∧
    (handleBindingRequest E r2 m2 w2).2.store = w2.store ∧
    (∀ ev ∈ (handleBindingRequest E r1 m1 w1).2.since w1,
      ev.isLog = true ∨ ev.isSend = true) ∧
    (handleBindingRequest E r1 m1 w1).2.since w1 =
      (match E.AddrIPPort r1.SrcAddr with
       | .error err =>
         [.log r1.Log .debug "(STUN) Received BindingRequest from %s" [.addr r1.SrcAddr],
          .log r1.Log .error "Failed to extract IP and Port from %s: %v"
            [.addr r1.SrcAddr, .err err]]
       | .ok (ip, port) =>
         [.log r1.Log .debug "(STUN) Received BindingRequest from %s" [.addr r1.SrcAddr],
          .log r1.Log .debug "(STUN) Responding to BindingRequest from %s" [.addr r1.SrcAddr],
          .send r1.Conn r1.SrcAddr
            (E.buildMsg m1.TransactionID BindingSuccess
              [.xorMappedAddress ip port, .fingerprint])]) ∧
    (handleBindingRequest E r1 m1 w1).1 =
      (match E.AddrIPPort r1.SrcAddr with
       | .error err => some err
       | .ok (ip, port) =>
         (E.buildAndSend r1.Conn r1.SrcAddr
            (E.buildMsg m1.TransactionID BindingSuccess
              [.xorMappedAddress ip port, .fingerprint]) w1.net).1) ∧
    (∀ l : Logger,
      ((handleBindingRequest E r1 m1 w1).2.since w1).map (Event.withLogger l) =
        ((handleBindingRequest E r2 m2 w2).2.since w2).map (Event.withLogger l)) ∧
    (r1.Log = r2.Log →
      (handleBindingRequest E r1 m1 w1).2.since w1 =
        (handleBindingRequest E r2 m2 w2).2.since w2) := by
  rcases haddr : E.AddrIPPort r1.SrcAddr with err | ⟨ip, port⟩
  · have haddr2 : E.AddrIPPort r2.SrcAddr = .error err := by rw [← hsrc]; exact haddr
    have h1 := handleBindingRequest_of_addr_error E r1 m1 w1 err haddr
    have h2 := handleBindingRequest_of_addr_error E r2 m2 w2 err haddr2
    have s1 := since_of_trace (handleBindingRequest E r1 m1 w1).2 w1 _ (by rw [h1])
    have s2 := since_of_trace (handleBindingRequest E r2 m2 w2).2 w2 _ (by rw [h2])
    refine ⟨by rw [h1, h2], ?_, by rw [h1, h2]; exact hnet, by rw [h1], by rw [h2],
      ?_, s1, by rw [h1], ?_, ?_⟩
    · rw [s1, s2]
      simp [List.filter, Event.isSend]
    · rw [s1]
      simp [Event.isLog]
    · intro l
      rw [s1, s2]
      simp [Event.withLogger, hsrc]
    · intro hl
      rw [s1, s2, hl, hsrc]
  · have haddr2 : E.AddrIPPort r2.SrcAddr = .ok (ip, port) := by rw [← hsrc]; exact haddr
    have h1 := handleBindingRequest_of_addr E r1 m1 w1 ip port haddr
    have h2 := handleBindingRequest_of_addr E r2 m2 w2 ip port haddr2
    have s1 := since_of_trace (handleBindingRequest E r1 m1 w1).2 w1 _ (by rw [h1])
    have s2 := since_of_trace (handleBindingRequest E r2 m2 w2).2 w2 _ (by rw [h2])
    refine ⟨by rw [h1, h2, hconn, hsrc, htid, hnet], ?_,
      by rw [h1, h2, hconn, hsrc, htid, hnet], by rw [h1], by rw [h2],
      ?_, s1, by rw [h1], ?_, ?_⟩
    · rw [s1, s2]
      simp [List.filter, Event.isSend, hconn, hsrc, htid]
    · rw [s1]
      simp [Event.isLog, Event.isSend]
    · intro l
      rw [s1, s2]
      simp [Event.withLogger, hconn, hsrc, htid]
    · intro hl
      rw [s1, s2, hl, hconn, hsrc, htid]

/-- C7 at two sample Binding requests from the same source: one with a
username attribute, another realm, another credential callback, another logger
and another store.  Results and sends are equal, and the records of calls are
equal once both are read with the logger of the first request. -/
theorem binding_is_stateless_witness :
    (sampleRequest [0, 1, 8]).Conn = (sampleRequestOther [0, 1, 8, 8]).Conn ∧
    (sampleRequest [0, 1, 8]).SrcAddr = (sampleRequestOther [0, 1, 8, 8]).SrcAddr ∧
    world0.net = world1.net ∧
    (handleBindingRequest sampleEnv (sampleRequest [0, 1, 8])
        { Typ := { Method := 1, Class := 0 }, TransactionID := [8], Attributes := [],
          Raw := [0, 1, 8] } world0).1 =
      (handleBindingRequest sampleEnv (sampleRequestOther [0, 1, 8, 8])
        { Typ := { Method := 1, Class := 0 }, TransactionID := [8],
          Attributes := [{ Typ := 0x0006, Value := ascii "user" }],
          Raw := [0, 1, 8, 8] } world1).1 ∧
    ((handleBindingRequest sampleEnv (sampleRequest [0, 1, 8])
        { Typ := { Method := 1, Class := 0 }, TransactionID := [8], Attributes := [],
          Raw := [0, 1, 8] } world0).2.since world0).filter Event.isSend =
      ((handleBindingRequest sampleEnv (sampleRequestOther [0, 1, 8, 8])
        { Typ := { Method := 1, Class := 0 }, TransactionID := [8],
          Attributes := [{ Typ := 0x0006, Value := ascii "user" }],
          Raw := [0, 1, 8, 8] } world1).2.since world1).filter Event.isSend ∧
    ((handleBindingRequest sampleEnv (sampleRequest [0, 1, 8])
        { Typ := { Method := 1, Class := 0 }, TransactionID := [8], Attributes := [],
          Raw := [0, 1, 8] } world0).2.since world0).map
        (Event.withLogger (sampleRequest [0, 1, 8]).Log) =
      ((handleBindingRequest sampleEnv (sampleRequestOther [0, 1, 8, 8])
        { Typ := { Method := 1, Class := 0 }, TransactionID := [8],
          Attributes := [{ Typ := 0x0006, Value := ascii "user" }],
          Raw := [0, 1, 8, 8] } world1).2.since world1).map
        (Event.withLogger (sampleRequest [0, 1, 8]).Log) :=
  ⟨rfl, rfl, rfl,
   (binding_is_stateless sampleEnv (sampleRequest [0, 1, 8]) (sampleRequestOther [0, 1, 8, 8])
      { Typ := { Method := 1, Class := 0 }, TransactionID := [8], Attributes := [],
        Raw := [0, 1, 8] }
      { Typ := { Method := 1, Class := 0 }, TransactionID := [8],
        Attributes := [{ Typ := 0x0006, Value := ascii "user" }], Raw := [0, 1, 8, 8] }
      world0 world1 rfl rfl rfl rfl).1,
   (binding_is_stateless sampleEnv (sampleRequest [0, 1, 8]) (sampleRequestOther [0, 1, 8, 8])
      { Typ := { Method := 1, Class := 0 }, TransactionID := [8], Attributes := [],
        Raw := [0, 1, 8] }
      { Typ := { Method := 1, Class := 0 }, TransactionID := [8],
        Attributes := [{ Typ := 0x0006, Value := ascii "user" }], Raw := [0, 1, 8, 8] }
      world0 world1 rfl rfl rfl rfl).2.1,
   (binding_is_stateless sampleEnv (sampleRequest [0, 1, 8]) (sampleRequestOther [0, 1, 8, 8])
      { Typ := { Method := 1, Class := 0 }, TransactionID := [8], Attributes := [],
        Raw := [0, 1, 8] }
      { Typ := { Method := 1, Class := 0 }, TransactionID := [8],
        Attributes := [{ Typ := 0x0006, Value := ascii "user" }], Raw := [0, 1, 8, 8] }
      world0 world1 rfl rfl rfl rfl).2.2.2.2.2.2.2.2.1 _⟩

/-! ## `HandleRequest` -/

/-- With a source address text of three bytes or more, `HandleRequest` logs,
runs one of the two paths on the record so far, and logs again. -/
theorem HandleRequest_of_long {σ ν : Type} (E : Env σ ν) (r : Request) (w : World σ ν)
    (hlen : 3 ≤ r.SrcAddr.str.length) :
    ∃ line : String, (line = "FROM JUNINHO" ∨ line = "FROM MARUCS") ∧
      HandleRequest E r w =
        (match (if E.IsChannelData r.Buff then
            (Outcome.returned (handleDataPacket E r (w.withTrace (w.trace ++
              [.log r.Log .debug "----------- New Request -----------" [],
               .log r.Log .debug line [],
               .log r.Log .debug "Received %d bytes of udp from %s on %s"
                 [.int r.Buff.length, .addr r.SrcAddr, .addr r.Conn.LocalAddr]]))).1,
             (handleDataPacket E r (w.withTrace (w.trace ++
              [.log r.Log .debug "----------- New Request -----------" [],
               .log r.Log .debug line [],
               .log r.Log .debug "Received %d bytes of udp from %s on %s"
                 [.int r.Buff.length, .addr r.SrcAddr, .addr r.Conn.LocalAddr]]))).2)
          else handleTURNPacket E r (w.withTrace (w.trace ++
              [.log r.Log .debug "----------- New Request -----------" [],
               .log r.Log .debug line [],
               .log r.Log .debug "Received %d bytes of udp from %s on %s"
                 [.int r.Buff.length, .addr r.SrcAddr, .addr r.Conn.LocalAddr]]))) with
        | (.panicked reason, w2) => (.panicked reason, w2)
        | (.returned err, w2) =>
          (.returned err,
           w2.emit (.log r.Log .debug "----------- End Request -----------" []))) := by
  by_cases hp : r.SrcAddr.str.take 3 = [0x31, 0x38, 0x38]
  · refine ⟨"FROM JUNINHO", Or.inl rfl, ?_⟩
    simp [HandleRequest, sliceTo, hlen, hp, World.emit, World.withTrace]
  · refine ⟨"FROM MARUCS", Or.inr rfl, ?_⟩
    simp [HandleRequest, sliceTo, hlen, hp, World.emit, World.withTrace]

/-- The run of `HandleRequest` that takes the ChannelData path. -/
theorem HandleRequest_data_path {σ ν : Type} (E : Env σ ν) (r : Request) (w : World σ ν)
    (hlen : 3 ≤ r.SrcAddr.str.length) (hcd : E.IsChannelData r.Buff = true) :
    ∃ line : String, (line = "FROM JUNINHO" ∨ line = "FROM MARUCS") ∧
      HandleRequest E r w =
        (.returned (handleDataPacket E r w).1,
         { trace := w.trace ++
            ([.log r.Log .debug "----------- New Request -----------" [],
              .log r.Log .debug line [],
              .log r.Log .debug "Received %d bytes of udp from %s on %s"
                [.int r.Buff.length, .addr r.SrcAddr, .addr r.Conn.LocalAddr]]
              ++ (handleDataPacket E r w).2.since w
              ++ [.log r.Log .debug "----------- End Request -----------" []]),
           store := (handleDataPacket E r w).2.store,
           net := (handleDataPacket E r w).2.net }) := by
  obtain ⟨line, hl, H⟩ := HandleRequest_of_long E r w hlen
  refine ⟨line, hl, ?_⟩
  rw [H, if_pos hcd, shape_of_framed _ (handleDataPacket_framed E r) w]
  simp [World.emit]

/-- The run of `HandleRequest` that takes the STUN path. -/
theorem HandleRequest_turn_path {σ ν : Type} (E : Env σ ν) (r : Request) (w : World σ ν)
    (hlen : 3 ≤ r.SrcAddr.str.length) (hcd : E.IsChannelData r.Buff = false) :
    ∃ line : String, (line = "FROM JUNINHO" ∨ line = "FROM MARUCS") ∧
      HandleRequest E r w =
        ((handleTURNPacket E r w).1,
         { trace := w.trace ++
            ([.log r.Log .debug "----------- New Request -----------" [],
              .log r.Log .debug line [],
              .log r.Log .debug "Received %d bytes of udp from %s on %s"
                [.int r.Buff.length, .addr r.SrcAddr, .addr r.Conn.LocalAddr]]
              ++ (handleTURNPacket E r w).2.since w
              ++ [.log r.Log .debug "----------- End Request -----------" []]),
           store := (handleTURNPacket E r w).2.store,
           net := (handleTURNPacket E r w).2.net }) := by
  obtain ⟨line, hl, H⟩ := HandleRequest_of_long E r w hlen
  refine ⟨line, hl, ?_⟩
  obtain ⟨res, hres⟩ := (handleTURNPacket_invocations E r w).1
  rw [H, hcd, shape_of_framed _ (handleTURNPacket_framed E r) w, hres]
  simp [World.emit]

/-- C5: with a source address text of at least three bytes (so of at least
three characters), `HandleRequest` takes exactly one path.  If `proto.IsChannelData` holds of the buffer, its
result, store and sockets are those of `handleDataPacket` and it invokes no STUN
handler; otherwise they are those of `handleTURNPacket` and it does not invoke
`handleChannelData`.  The test on the first three bytes of the source address
only selects one of two logger lines.  At most one request handler is invoked. -/
theorem HandleRequest_single_path {σ ν : Type} (E : Env σ ν) (r : Request) (w : World σ ν)
    (hlen : 3 ≤ r.SrcAddr.str.length) :
    ∃ line : String, (line = "FROM JUNINHO" ∨ line = "FROM MARUCS") ∧
      (E.IsChannelData r.Buff = true →
        (HandleRequest E r w).1 = .returned (handleDataPacket E r w).1 ∧
        (HandleRequest E r w).2.store = (handleDataPacket E r w).2.store ∧
        (HandleRequest E r w).2.net = (handleDataPacket E r w).2.net ∧
        (HandleRequest E r w).2.since w =
          [.log r.Log .debug "----------- New Request -----------" [],
           .log r.Log .debug line [],
           .log r.Log .debug "Received %d bytes of udp from %s on %s"
             [.int r.Buff.length, .addr r.SrcAddr, .addr r.Conn.LocalAddr]]
            ++ (handleDataPacket E r w).2.since w
            ++ [.log r.Log .debug "----------- End Request -----------" []] ∧
        ((HandleRequest E r w).2.since w).countP Event.isHandler = 0) ∧
      (E.IsChannelData r.Buff = false →
        (HandleRequest E r w).1 = (handleTURNPacket E r w).1 ∧
        (HandleRequest E r w).2.store = (handleTURNPacket E r w).2.store ∧
        (HandleRequest E r w).2.net = (handleTURNPacket E r w).2.net ∧
        (HandleRequest E r w).2.since w =
          [.log r.Log .debug "----------- New Request -----------" [],
           .log r.Log .debug line [],
           .log r.Log .debug "Received %d bytes of udp from %s on %s"
             [.int r.Buff.length, .addr r.SrcAddr, .addr r.Conn.LocalAddr]]
            ++ (handleTURNPacket E r w).2.since w
            ++ [.log r.Log .debug "----------- End Request -----------" []] ∧
        ((HandleRequest E r w).2.since w).countP Event.isChannelData = 0) ∧
      ((HandleRequest E r w).2.since w).countP Event.isInvocation ≤ 1 := by
  rcases hcd : E.IsChannelData r.Buff with _ | _
  · obtain ⟨line, hl, H⟩ := HandleRequest_turn_path E r w hlen hcd
    obtain ⟨_, hinv, hch⟩ := handleTURNPacket_invocations E r w
    have hs := since_of_trace (HandleRequest E r w).2 w _ (by rw [H])
    refine ⟨line, hl, fun h => absurd h (by simp), fun _ => ?_, ?_⟩
    · refine ⟨by rw [H], by rw [H], by rw [H], hs, ?_⟩
      rw [hs]
      simp [List.countP_append, List.countP_cons, Event.isChannelData, hch]
    · rw [hs]
      simpa [List.countP_append, List.countP_cons, Event.isInvocation] using hinv
  · obtain ⟨line, hl, H⟩ := HandleRequest_data_path E r w hlen hcd
    obtain ⟨hinv, hh⟩ := handleDataPacket_invocations E r w
    have hs := since_of_trace (HandleRequest E r w).2 w _ (by rw [H])
    refine ⟨line, hl, fun _ => ?_, fun h => absurd h (by simp), ?_⟩
    · refine ⟨by rw [H], by rw [H], by rw [H], hs, ?_⟩
      rw [hs]
      simp [List.countP_append, List.countP_cons, Event.isHandler, hh]
    · rw [hs]
      simpa [List.countP_append, List.countP_cons, Event.isInvocation] using hinv

/-- C5 at the sample Binding request: the STUN path is taken, and the result
is that of `handleTURNPacket`. -/
theorem HandleRequest_single_path_witness :
    3 ≤ (sampleRequest [0, 1, 1, 2, 3]).SrcAddr.str.length ∧
    sampleEnv.IsChannelData (sampleRequest [0, 1, 1, 2, 3]).Buff = false ∧
    (HandleRequest sampleEnv (sampleRequest [0, 1, 1, 2, 3]) world0).1
      = (handleTURNPacket sampleEnv (sampleRequest [0, 1, 1, 2, 3]) world0).1 ∧
    ((HandleRequest sampleEnv (sampleRequest [0, 1, 1, 2, 3]) world0).2.since world0).countP
      Event.isInvocation ≤ 1 :=
  ⟨by decide, rfl,
   ((HandleRequest_single_path sampleEnv (sampleRequest [0, 1, 1, 2, 3]) world0
      (by decide)).choose_spec.2.2.1 rfl).1,
   (HandleRequest_single_path sampleEnv (sampleRequest [0, 1, 1, 2, 3]) world0
      (by decide)).choose_spec.2.2.2⟩

/-- C4, at the failing input: on a request whose source address text is `:0`
(two bytes), `HandleRequest` does not return; it panics in the slice expression
after its first logger call, whatever the buffer and the collaborators. -/
theorem HandleRequest_panics_on_short_source {σ ν : Type} (E : Env σ ν) (r : Request)
    (w : World σ ν) (network : Bytes) :
    HandleRequest E { r with SrcAddr := { network := network, str := [0x3A, 0x30] } } w =
      (.panicked "slice bounds out of range",
       w.emit (.log r.Log .debug "----------- New Request -----------" [])) := by
  simp [HandleRequest, sliceTo]

/-- C10: the routing error names what was unexpected.  For a class other than
Indication and Request the error wraps `errUnexpectedClass` and is built from
the class alone; for an Indication with a method other than Send, and for a
Request with a method outside Allocate, Refresh, CreatePermission, ChannelBind
and Binding, the error wraps `errUnexpectedMethod` and not `errUnexpectedClass`. -/
theorem routing_error_names_the_unexpected (cls method : Nat) :
    (cls ≠ ClassIndication → cls ≠ ClassRequest →
      getMessageHandler cls method
        = (none, some (.errorf "%w: %s" .errUnexpectedClass [.cls cls])) ∧
      (GoError.errorf "%w: %s" .errUnexpectedClass [.cls cls]).Is .errUnexpectedClass = true ∧
      ∀ other : Nat, getMessageHandler cls other = getMessageHandler cls method) ∧
    (cls = ClassIndication → method ≠ MethodSend →
      ∃ e, getMessageHandler cls method = (none, some e) ∧
        e.Is .errUnexpectedMethod = true ∧ e.Is .errUnexpectedClass = false) ∧
    (cls = ClassRequest →
      method ∉ [MethodAllocate, MethodRefresh, MethodCreatePermission, MethodChannelBind,
        MethodBinding] →
      ∃ e, getMessageHandler cls method = (none, some e) ∧
        e.Is .errUnexpectedMethod = true ∧ e.Is .errUnexpectedClass = false) := by
  refine ⟨?_, ?_, ?_⟩
  · intro h1 h2
    refine ⟨by simp [getMessageHandler, h1, h2], rfl, ?_⟩
    intro other
    simp [getMessageHandler, h1, h2]
  · intro h1 h2
    exact ⟨.errorf "%w: %s" .errUnexpectedMethod [.method method],
      by simp [getMessageHandler, h1, h2], rfl, rfl⟩
  · intro h1 h2
    have hne : ClassRequest ≠ ClassIndication := by decide
    simp only [List.mem_cons, List.mem_singleton, not_or, List.not_mem_nil, or_false] at h2
    obtain ⟨a, b, c, d, e⟩ := h2
    exact ⟨.errorf "%w: %s" .errUnexpectedMethod [.method method],
      by simp [getMessageHandler, h1, hne, a, b, c, d, e], rfl, rfl⟩

/-- C10 at three inputs: a success response with any method, a Binding
indication and a Send request. -/
theorem routing_error_names_the_unexpected_witness :
    (getMessageHandler ClassSuccessResponse MethodAllocate
        = (none, some (.errorf "%w: %s" .errUnexpectedClass [.cls ClassSuccessResponse]))) ∧
    (∃ e, getMessageHandler ClassIndication MethodBinding = (none, some e) ∧
        e.Is .errUnexpectedMethod = true ∧ e.Is .errUnexpectedClass = false) ∧
    (∃ e, getMessageHandler ClassRequest MethodSend = (none, some e) ∧
        e.Is .errUnexpectedMethod = true ∧ e.Is .errUnexpectedClass = false) :=
  ⟨((routing_error_names_the_unexpected ClassSuccessResponse MethodAllocate).1
      (by decide) (by decide)).1,
   (routing_error_names_the_unexpected ClassIndication MethodBinding).2.1 rfl (by decide),
   (routing_error_names_the_unexpected ClassRequest MethodSend).2.2 rfl (by decide)⟩

end server
